import Mathlib

/-!
Verification of the authentication and account-lifecycle logic of the
get-ducked-api repository (the POST /auth/register and POST /auth/login
handlers, together with the users collection and its unique index on
email).

The handlers are shallowly embedded as pure Lean functions.  Calls to the
external collaborators (the Mongo users collection, bcrypt, the JWT
signer) are modelled by oracle parameters whose results are either a
value or a thrown JavaScript error; a second, store-explicit model
interprets the collection calls against a concrete list of user records
so that persistence and frame properties can be stated.
-/

namespace GetDucked

/-- A thrown JavaScript error as observed by the catch blocks of the
handlers: the numeric code field (absent modelled as none), the
message and the stack trace. -/
structure JsError where
  code : Option Nat
  message : String
  stack : String
deriving Repr, DecidableEq

/-- Result of an awaited call that can throw: either a value or a thrown
error (caught by the enclosing try/catch). -/
inductive OpResult (α : Type) where
  | ok : α → OpResult α
  | thrown : JsError → OpResult α
deriving Repr, DecidableEq

/-- A user record as stored in the users collection.  The field idStr is
the string rendering of the store-assigned id; role is optional because
a stored record may lack the field (login defaults it). -/
structure StoredUser where
  idStr : String
  email : String
  passwordHash : String
  role : Option String
  createdAt : Nat
deriving Repr, DecidableEq

/-- The document built by the register handler and passed to insertOne
(the store assigns the id).  Its role is always the literal "user" in
the source, but the field is kept to mirror the built object. -/
structure NewUser where
  email : String
  passwordHash : String
  role : String
  createdAt : Nat
deriving Repr, DecidableEq

/-- The payload signed into the JWT: userId, email, role. -/
structure TokenPayload where
  userId : String
  email : String
  role : String
deriving Repr, DecidableEq

/-- The user object returned in a successful response body. -/
structure UserView where
  id : String
  email : String
  role : String
deriving Repr, DecidableEq

/-- A response body: either the success shape with token and user, an
error body with error message and code, or an error body that also
carries a field name (validation errors). -/
inductive Body where
  | auth : String → UserView → Body
  | err : String → String → Body
  | errField : String → String → String → Body
deriving Repr, DecidableEq

/-- An HTTP response: status code plus JSON body. -/
structure Response where
  status : Nat
  body : Body
deriving Repr, DecidableEq

/-- The context object passed to fastify.log.error by the catch blocks:
the causal error message, its stack, and the attempted email. -/
structure LogCtx where
  error : String
  stack : String
  email : String
deriving Repr, DecidableEq

/-- One structured log call: the log message and its context object. -/
structure LogEvent where
  msg : String
  ctx : LogCtx
deriving Repr, DecidableEq

/-- An operation issued to the users collection. -/
inductive StoreOp where
  | findOneOp : String → StoreOp
  | insertOneOp : NewUser → StoreOp
deriving Repr, DecidableEq

/-- What a handler run produces: the response, the log calls made, and
the trace of users-collection operations issued, in order. -/
structure HandlerResult where
  response : Response
  logs : List LogEvent
  trace : List StoreOp
deriving Repr, DecidableEq

/-- JavaScript truthiness of a destructured body field that is either a
string or absent: undefined and the empty string are falsy, every other
string is truthy. -/
def truthy : Option String → Bool
  | none => false
  | some s => !(s == "")

/-- The login handler's role expression: user.role or-else "user" with
JavaScript truthiness, so the default applies both when the stored
record has no role field and when the stored role is the empty string
(a falsy string). -/
def roleOr : Option String → String
  | none => "user"
  | some s => if s == "" then "user" else s

/-- A character matched by the regex class backslash-s of JavaScript:
tab, line feed, vertical tab, form feed, carriage return, space, and the
Unicode space separators, line/paragraph separators, and BOM. -/
def jsWhitespace (c : Char) : Bool :=
  c.toNat == 9 || c.toNat == 10 || c.toNat == 11 || c.toNat == 12 ||
  c.toNat == 13 || c.toNat == 32 || c.toNat == 0xa0 || c.toNat == 0x1680 ||
  (0x2000 ≤ c.toNat && c.toNat ≤ 0x200a) ||
  c.toNat == 0x2028 || c.toNat == 0x2029 || c.toNat == 0x202f ||
  c.toNat == 0x205f || c.toNat == 0x3000 || c.toNat == 0xfeff

/-- A character matched by the regex atom class of the email pattern:
not whitespace and not the at sign. -/
def validAtomChar (c : Char) : Bool := !jsWhitespace c && !(c == '@')

/-- Matcher for the regex suffix: a literal dot followed by one or more
atom characters, ending the string. -/
def dotTail : List Char → Bool
  | [] => false
  | c :: r => c == '.' && (!r.isEmpty && r.all validAtomChar)

/-- Matcher for the domain part of the email regex: one or more atom
characters, then a literal dot, then one or more atom characters, to the
end of the string.  Standard backtracking reading: consume one atom
character, then either the dot-tail starts here or keep consuming. -/
def domainMatch : List Char → Bool
  | [] => false
  | c :: cs => validAtomChar c && (dotTail cs || domainMatch cs)

/-- Matcher for the at sign followed by the domain part. -/
def atTail : List Char → Bool
  | [] => false
  | c :: d => c == '@' && domainMatch d

/-- Matcher for the whole anchored email regex of the register handler:
one or more atom characters, an at sign, then the domain part. -/
def localMatch : List Char → Bool
  | [] => false
  | c :: cs => validAtomChar c && (atTail cs || localMatch cs)

/-- emailRegex.test(email) for the pattern used at line 196 of the
register handler. -/
def emailRegexTest (s : String) : Bool := localMatch s.toList

/-- A 400 validation-error response with the given message and field. -/
def valErr (msg field : String) : Response :=
  ⟨400, .errField msg "VALIDATION_ERROR" field⟩

/-- The 409 duplicate-email response body sent by both the pre-check
path and the duplicate-key catch path of the register handler. -/
def dupResp : Response :=
  ⟨409, .err "An account with this email already exists" "DUPLICATE_EMAIL"⟩

/-- The 401 response sent by the login handler for an unknown email and
for a failed password comparison. -/
def invalidCredResp : Response :=
  ⟨401, .err "Invalid email or password" "INVALID_CREDENTIALS"⟩

/-- The 500 response of the register handler's catch block. -/
def regFailResp : Response :=
  ⟨500, .err "Failed to create account" "REGISTRATION_ERROR"⟩

/-- The 500 response of the login handler's catch block. -/
def loginFailResp : Response :=
  ⟨500, .err "Failed to process login" "LOGIN_ERROR"⟩

/-- The catch block of the register handler: a duplicate-key error
(code field 11000) is answered with the duplicate-email 409; any other
error is logged (message, stack, attempted email) and answered 500. -/
def registerCatch (email : String) (err : JsError) : Response × List LogEvent :=
  if err.code = some 11000 then (dupResp, [])
  else (regFailResp, [⟨"Registration error", ⟨err.message, err.stack, email⟩⟩])

/-- The catch block of the login handler: every error is logged
(message, stack, attempted email) and answered 500. -/
def loginCatch (email : String) (err : JsError) : Response × List LogEvent :=
  (loginFailResp, [⟨"Login error", ⟨err.message, err.stack, email⟩⟩])

/-- Oracle for the awaited calls the register handler makes: the users
collection findOne by email, bcrypt.hash with its salt rounds, the
collection insertOne (returning the string rendering of the inserted
id), the JWT signer, and the current time used for createdAt. -/
structure RegisterOps where
  findOne : String → OpResult (Option StoredUser)
  bcryptHash : String → Nat → OpResult String
  insertOne : NewUser → OpResult String
  sign : TokenPayload → String
  now : Nat

/-- The POST /auth/register handler (part_003 lines 175 to 278),
translated clause by clause: presence checks on email then password,
the email regex, the password length check, then inside try: findOne by
email, the duplicate pre-check, bcrypt.hash(password, 10), building the
new user record with role "user" and current timestamp, insertOne, and
the 201 response with the signed token; every thrown error goes through
the catch block. -/
def register (ops : RegisterOps) (email? password? : Option String) :
    HandlerResult :=
  if truthy email? = false then
    ⟨valErr "Missing required field: email" "email", [], []⟩
  else if truthy password? = false then
    ⟨valErr "Missing required field: password" "password", [], []⟩
  else
    let email := email?.getD ""
    let password := password?.getD ""
    if emailRegexTest email = false then
      ⟨valErr "Invalid email format" "email", [], []⟩
    else if password.length < 8 then
      ⟨valErr "Password must be at least 8 characters long" "password", [], []⟩
    else
      match ops.findOne email with
      | .thrown err =>
        let c := registerCatch email err
        ⟨c.1, c.2, [.findOneOp email]⟩
      | .ok (some _) => ⟨dupResp, [], [.findOneOp email]⟩
      | .ok none =>
        match ops.bcryptHash password 10 with
        | .thrown err =>
          let c := registerCatch email err
          ⟨c.1, c.2, [.findOneOp email]⟩
        | .ok passwordHash =>
          let newUser : NewUser := ⟨email, passwordHash, "user", ops.now⟩
          match ops.insertOne newUser with
          | .thrown err =>
            let c := registerCatch email err
            ⟨c.1, c.2, [.findOneOp email, .insertOneOp newUser]⟩
          | .ok insertedId =>
            let tok := ops.sign ⟨insertedId, newUser.email, newUser.role⟩
            ⟨⟨201, .auth tok ⟨insertedId, newUser.email, newUser.role⟩⟩, [],
              [.findOneOp email, .insertOneOp newUser]⟩

/-- Oracle for the awaited calls the login handler makes: the users
collection findOne by email, bcrypt.compare(password, storedHash), and
the JWT signer. -/
structure LoginOps where
  findOne : String → OpResult (Option StoredUser)
  bcryptCompare : String → String → OpResult Bool
  sign : TokenPayload → String

/-- The POST /auth/login handler (part_003 lines 340 to 408), translated
clause by clause: presence checks on email then password, then inside
try: findOne by email, the unknown-email 401, bcrypt.compare, the
wrong-password 401, and the 200 response with the signed token, where
the role defaults to "user" when the stored record has none; every
thrown error goes through the catch block. -/
def login (ops : LoginOps) (email? password? : Option String) :
    HandlerResult :=
  if truthy email? = false then
    ⟨valErr "Missing required field: email" "email", [], []⟩
  else if truthy password? = false then
    ⟨valErr "Missing required field: password" "password", [], []⟩
  else
    let email := email?.getD ""
    let password := password?.getD ""
    match ops.findOne email with
    | .thrown err =>
      let c := loginCatch email err
      ⟨c.1, c.2, [.findOneOp email]⟩
    | .ok none => ⟨invalidCredResp, [], [.findOneOp email]⟩
    | .ok (some user) =>
      match ops.bcryptCompare password user.passwordHash with
      | .thrown err =>
        let c := loginCatch email err
        ⟨c.1, c.2, [.findOneOp email]⟩
      | .ok false => ⟨invalidCredResp, [], [.findOneOp email]⟩
      | .ok true =>
        let r := roleOr user.role
        let tok := ops.sign ⟨user.idStr, user.email, r⟩
        ⟨⟨200, .auth tok ⟨user.idStr, user.email, r⟩⟩, [],
          [.findOneOp email]⟩

/-! ## Store-level semantics

The users collection, with the unique index on email created at plugin
startup (part_003 line 112), interpreted over a list of stored records. -/

/-- usersCollection.findOne on the email filter: the first stored record
with that exact email, if any. -/
def findOneEmail (store : List StoredUser) (email : String) :
    Option StoredUser :=
  store.find? (fun u => u.email == email)

/-- The duplicate-key error Mongo raises when the unique index on email
rejects an insert; the handlers only inspect its code field, the message
and stack here are representative. -/
def dupKeyError : JsError :=
  ⟨some 11000, "E11000 duplicate key error collection: users", ""⟩

/-- Membership of an email in the store. -/
def storeHas (store : List StoredUser) (email : String) : Bool :=
  store.any (fun u => u.email == email)

/-- usersCollection.insertOne under the unique index on email: the
insert is rejected with a duplicate-key error when a record with the
same email is already stored, and otherwise appends the record. -/
def insertOneUnique (store : List StoredUser) (d : StoredUser) :
    OpResult (List StoredUser) :=
  if storeHas store d.email then .thrown dupKeyError
  else .ok (store ++ [d])

/-- The store invariant: at most one record per distinct email. -/
def storeUnique (store : List StoredUser) : Prop :=
  store.Pairwise (fun u v => u.email ≠ v.email)

/-- The register handler run against an explicit store in which the
collection calls succeed (findOne reads the store, insertOne follows the
unique-index semantics and the store assigns newId); bcrypt.hash and
jwt.sign are pure oracles, now is the timestamp.  Same clause-by-clause
translation of part_003 lines 175 to 278 as register, with the store
threaded through. -/
def registerOnStore (bhash : String → Nat → String)
    (sign : TokenPayload → String) (newId : String) (now : Nat)
    (store : List StoredUser) (email? password? : Option String) :
    HandlerResult × List StoredUser :=
  if truthy email? = false then
    (⟨valErr "Missing required field: email" "email", [], []⟩, store)
  else if truthy password? = false then
    (⟨valErr "Missing required field: password" "password", [], []⟩, store)
  else
    let email := email?.getD ""
    let password := password?.getD ""
    if emailRegexTest email = false then
      (⟨valErr "Invalid email format" "email", [], []⟩, store)
    else if password.length < 8 then
      (⟨valErr "Password must be at least 8 characters long" "password", [], []⟩,
        store)
    else
      match findOneEmail store email with
      | some _ => (⟨dupResp, [], [.findOneOp email]⟩, store)
      | none =>
        let passwordHash := bhash password 10
        let newUser : NewUser := ⟨email, passwordHash, "user", now⟩
        match insertOneUnique store ⟨newId, email, passwordHash, some "user", now⟩ with
        | .thrown err =>
          let c := registerCatch email err
          (⟨c.1, c.2, [.findOneOp email, .insertOneOp newUser]⟩, store)
        | .ok store' =>
          let tok := sign ⟨newId, newUser.email, newUser.role⟩
          (⟨⟨201, .auth tok ⟨newId, newUser.email, newUser.role⟩⟩, [],
            [.findOneOp email, .insertOneOp newUser]⟩, store')

/-- The login handler run against an explicit store in which findOne
succeeds and reads the store; bcrypt.compare may still fail (oracle
returning an OpResult) so that the infrastructure-failure path is kept.
Same clause-by-clause translation of part_003 lines 340 to 408 as
login, with the store threaded through. -/
def loginOnStore (cmp : String → String → OpResult Bool)
    (sign : TokenPayload → String) (store : List StoredUser)
    (email? password? : Option String) :
    HandlerResult × List StoredUser :=
  if truthy email? = false then
    (⟨valErr "Missing required field: email" "email", [], []⟩, store)
  else if truthy password? = false then
    (⟨valErr "Missing required field: password" "password", [], []⟩, store)
  else
    let email := email?.getD ""
    let password := password?.getD ""
    match findOneEmail store email with
    | none => (⟨invalidCredResp, [], [.findOneOp email]⟩, store)
    | some user =>
      match cmp password user.passwordHash with
      | .thrown err =>
        let c := loginCatch email err
        (⟨c.1, c.2, [.findOneOp email]⟩, store)
      | .ok false => (⟨invalidCredResp, [], [.findOneOp email]⟩, store)
      | .ok true =>
        let r := roleOr user.role
        let tok := sign ⟨user.idStr, user.email, r⟩
        (⟨⟨200, .auth tok ⟨user.idStr, user.email, r⟩⟩, [],
          [.findOneOp email]⟩, store)

/-! ## Concurrent registrations for one email

Each in-flight register request for email E that has passed validation
performs two atomic collection operations: the findOne pre-check and
the insertOne guarded by the unique index.  A session is the state of
one such request between those operations; a step interleaves one
session's next operation against the shared store. -/

/-- State of one in-flight register request for the contended email:
before its findOne, between findOne (which found nothing) and its
insertOne carrying the record it will insert, or finished with its
response. -/
inductive SessState where
  | start : SessState
  | needInsert : StoredUser → SessState
  | finished : Response → SessState
deriving Repr, DecidableEq

/-- Shared store plus the per-session states. -/
structure RaceConfig where
  store : List StoredUser
  sess : List SessState
deriving Repr, DecidableEq

/-- The register handler's 201 response as issued for the inserted
record d with token tok. -/
def successResp (tok : String) (d : StoredUser) : Response :=
  ⟨201, .auth tok ⟨d.idStr, d.email, "user"⟩⟩

/-- One interleaving step of the concurrent register sessions for email
E.  findFound and findNone are the findOne pre-check (respond 409 when
a record exists, otherwise proceed to the insert carrying a record with
the contended email); insertOk is a successful insertOne followed by
the 201 response; insertDup is an insertOne rejected by the unique
index, whose duplicate-key error the catch block maps to the same 409
response. -/
inductive RaceStep (E : String) : RaceConfig → RaceConfig → Prop where
  | findFound (store : List StoredUser) (sess : List SessState) (i : Nat)
      (hi : sess.get? i = some .start)
      (hf : (findOneEmail store E).isSome = true) :
      RaceStep E ⟨store, sess⟩ ⟨store, sess.set i (.finished dupResp)⟩
  | findNone (store : List StoredUser) (sess : List SessState) (i : Nat)
      (d : StoredUser)
      (hi : sess.get? i = some .start)
      (hf : findOneEmail store E = none)
      (hd : d.email = E) :
      RaceStep E ⟨store, sess⟩ ⟨store, sess.set i (.needInsert d)⟩
  | insertOk (store : List StoredUser) (sess : List SessState) (i : Nat)
      (d : StoredUser) (store' : List StoredUser) (tok : String)
      (hi : sess.get? i = some (.needInsert d))
      (hins : insertOneUnique store d = .ok store') :
      RaceStep E ⟨store, sess⟩ ⟨store', sess.set i (.finished (successResp tok d))⟩
  | insertDup (store : List StoredUser) (sess : List SessState) (i : Nat)
      (d : StoredUser) (err : JsError)
      (hi : sess.get? i = some (.needInsert d))
      (hins : insertOneUnique store d = .thrown err) :
      RaceStep E ⟨store, sess⟩
        ⟨store, sess.set i (.finished (registerCatch E err).1)⟩

/-- A session that has finished with a 201 response. -/
def is201 : SessState → Bool
  | .finished r => r.status == 201
  | _ => false

/-- A session that has finished. -/
def isFinished : SessState → Bool
  | .finished _ => true
  | _ => false

/-- The characterization of the email pattern stated by the claim: the
string contains no whitespace, exactly one at sign with non-empty text
on both sides, and after the at sign at least one dot with non-empty
text on both sides of that dot. -/
def emailClaimSpec (s : String) : Prop :=
  (∀ c ∈ s.toList, jsWhitespace c = false) ∧
  s.toList.count '@' = 1 ∧
  ∃ l d : List Char, s.toList = l ++ '@' :: d ∧ l ≠ [] ∧
    ∃ i : Nat, d.get? i = some '.' ∧ 1 ≤ i ∧ i + 1 < d.length

/-- Invariant of the concurrent-registration system for email E: the
number of 201-finished sessions is one exactly when a record for E is
stored and zero otherwise; every record a session is about to insert
carries E; every finished session holds either a 201 response or the
duplicate-email 409; and while no record for E is stored no session has
finished. -/
def raceInv (E : String) (c : RaceConfig) : Prop :=
  c.sess.countP is201 = (if storeHas c.store E then 1 else 0) ∧
  (∀ d : StoredUser, SessState.needInsert d ∈ c.sess → d.email = E) ∧
  (∀ st ∈ c.sess, isFinished st = true →
    is201 st = true ∨ st = .finished dupResp) ∧
  (storeHas c.store E = false → ∀ st ∈ c.sess, isFinished st = false)

/-! ## Store-semantics helper lemmas -/

theorem storeHas_of_findOneEmail_none {store : List StoredUser}
    {email : String} (h : findOneEmail store email = none) :
    storeHas store email = false := by
  simp only [findOneEmail, List.find?_eq_none] at h
  simp only [storeHas, List.any_eq_false]
  exact h

theorem findOneEmail_isSome_iff {store : List StoredUser} {email : String} :
    (findOneEmail store email).isSome ↔ storeHas store email = true := by
  simp [findOneEmail, storeHas, List.find?_isSome, List.any_eq_true]

theorem insertOneUnique_ok {store : List StoredUser} {d : StoredUser}
    {store' : List StoredUser}
    (h : insertOneUnique store d = .ok store') :
    storeHas store d.email = false ∧ store' = store ++ [d] := by
  unfold insertOneUnique at h
  by_cases hc : storeHas store d.email
  · rw [if_pos hc] at h; cases h
  · rw [if_neg hc] at h
    cases h
    exact ⟨Bool.eq_false_iff.mpr hc, rfl⟩

theorem insertOneUnique_thrown {store : List StoredUser} {d : StoredUser}
    {err : JsError}
    (h : insertOneUnique store d = .thrown err) :
    storeHas store d.email = true ∧ err = dupKeyError := by
  unfold insertOneUnique at h
  by_cases hc : storeHas store d.email
  · rw [if_pos hc] at h
    cases h
    exact ⟨hc, rfl⟩
  · rw [if_neg hc] at h; cases h

theorem storeHas_append_self {store : List StoredUser} {d : StoredUser} :
    storeHas (store ++ [d]) d.email = true := by
  simp [storeHas]

/-! ## Email-regex characterization lemmas -/

theorem validAtomChar_iff {c : Char} :
    validAtomChar c = true ↔ jsWhitespace c = false ∧ c ≠ '@' := by
  simp [validAtomChar]

theorem all_validAtomChar_iff {l : List Char} :
    l.all validAtomChar = true ↔
      ∀ c ∈ l, jsWhitespace c = false ∧ c ≠ '@' := by
  simp only [List.all_eq_true, validAtomChar_iff]

theorem dotTail_iff {cs : List Char} :
    dotTail cs = true ↔
      ∃ r : List Char, cs = '.' :: r ∧ r ≠ [] ∧ r.all validAtomChar = true := by
  cases cs with
  | nil => simp [dotTail]
  | cons c r =>
    simp only [dotTail, Bool.and_eq_true, beq_iff_eq, Bool.not_eq_true',
      List.isEmpty_eq_false, List.cons.injEq]
    constructor
    · rintro ⟨hc, hr, hall⟩
      exact ⟨r, ⟨hc, rfl⟩, hr, hall⟩
    · rintro ⟨r', ⟨hc, hr'⟩, hne, hall⟩
      subst hc; subst hr'
      exact ⟨rfl, hne, hall⟩

theorem domainMatch_iff (d : List Char) :
    domainMatch d = true ↔
      ∃ m r : List Char, d = m ++ '.' :: r ∧ m ≠ [] ∧ r ≠ [] ∧
        m.all validAtomChar = true ∧ r.all validAtomChar = true := by
  induction d with
  | nil =>
    constructor
    · intro h; simp [domainMatch] at h
    · rintro ⟨m, r, h, hm, -, -, -⟩
      cases m with
      | nil => exact absurd rfl hm
      | cons x m' => simp at h
  | cons c cs ih =>
    simp only [domainMatch, Bool.and_eq_true, Bool.or_eq_true]
    constructor
    · rintro ⟨hc, hrest | hrest⟩
      · rcases dotTail_iff.mp hrest with ⟨r, hcs, hr, hral⟩
        refine ⟨[c], r, by rw [hcs]; rfl, by simp, hr, by simp [hc], hral⟩
      · rcases ih.mp hrest with ⟨m, r, hcs, hm, hr, hmal, hral⟩
        refine ⟨c :: m, r, by rw [hcs]; rfl, by simp, hr, ?_, hral⟩
        simp [List.all_cons, hc, hmal]
    · rintro ⟨m, r, hd, hm, hr, hmal, hral⟩
      cases m with
      | nil => exact absurd rfl hm
      | cons x m' =>
        rw [List.cons_append, List.cons.injEq] at hd
        obtain ⟨hcx, hcs⟩ := hd
        subst hcx
        rw [List.all_cons, Bool.and_eq_true] at hmal
        refine ⟨hmal.1, ?_⟩
        cases m' with
        | nil =>
          left
          exact dotTail_iff.mpr ⟨r, by simpa using hcs, hr, hral⟩
        | cons y m'' =>
          right
          exact ih.mpr ⟨y :: m'', r, hcs, by simp, hr, hmal.2, hral⟩

theorem atTail_iff {cs : List Char} :
    atTail cs = true ↔ ∃ d : List Char, cs = '@' :: d ∧ domainMatch d = true := by
  cases cs with
  | nil => simp [atTail]
  | cons c d =>
    simp only [atTail, Bool.and_eq_true, beq_iff_eq, List.cons.injEq]
    constructor
    · rintro ⟨hc, hd⟩
      exact ⟨d, ⟨hc, rfl⟩, hd⟩
    · rintro ⟨d', ⟨hc, hd'⟩, hdm⟩
      subst hc; subst hd'
      exact ⟨rfl, hdm⟩

theorem localMatch_iff (cs : List Char) :
    localMatch cs = true ↔
      ∃ l d : List Char, cs = l ++ '@' :: d ∧ l ≠ [] ∧
        l.all validAtomChar = true ∧ domainMatch d = true := by
  induction cs with
  | nil =>
    constructor
    · intro h; simp [localMatch] at h
    · rintro ⟨l, d, h, hl, -, -⟩
      cases l with
      | nil => exact absurd rfl hl
      | cons x l' => simp at h
  | cons c cs ih =>
    simp only [localMatch, Bool.and_eq_true, Bool.or_eq_true]
    constructor
    · rintro ⟨hc, hrest | hrest⟩
      · rcases atTail_iff.mp hrest with ⟨d, hcs, hdm⟩
        refine ⟨[c], d, by rw [hcs]; rfl, by simp, by simp [hc], hdm⟩
      · rcases ih.mp hrest with ⟨l, d, hcs, hl, hlal, hdm⟩
        refine ⟨c :: l, d, by rw [hcs]; rfl, by simp, ?_, hdm⟩
        simp [List.all_cons, hc, hlal]
    · rintro ⟨l, d, hd, hl, hlal, hdm⟩
      cases l with
      | nil => exact absurd rfl hl
      | cons x l' =>
        rw [List.cons_append, List.cons.injEq] at hd
        obtain ⟨hcx, hcs⟩ := hd
        subst hcx
        rw [List.all_cons, Bool.and_eq_true] at hlal
        refine ⟨hlal.1, ?_⟩
        cases l' with
        | nil =>
          left
          exact atTail_iff.mpr ⟨d, by simpa using hcs, hdm⟩
        | cons y l'' =>
          right
          exact ih.mpr ⟨y :: l'', d, hcs, by simp, hlal.2, hdm⟩

theorem count_at_eq_zero {l : List Char}
    (h : l.all validAtomChar = true) : l.count '@' = 0 := by
  rw [List.count_eq_zero]
  intro hmem
  have := (all_validAtomChar_iff.mp h) '@' hmem
  exact this.2 rfl

theorem emailRegexTest_iff_claim (s : String) :
    emailRegexTest s = true ↔ emailClaimSpec s := by
  unfold emailRegexTest emailClaimSpec
  rw [localMatch_iff]
  constructor
  · rintro ⟨l, d, hsplit, hl, hlall, hdm⟩
    rcases (domainMatch_iff d).mp hdm with ⟨m, r, hdmr, hm, hr, hmall, hrall⟩
    have hdall : d.all validAtomChar = true := by
      rw [hdmr]
      simp only [List.all_append, List.all_cons, Bool.and_eq_true]
      exact ⟨hmall, by decide, hrall⟩
    refine ⟨?_, ?_, l, d, hsplit, hl, m.length, ?_, ?_, ?_⟩
    · intro c hc
      rw [hsplit] at hc
      rcases List.mem_append.mp hc with hcl | hcd
      · exact ((all_validAtomChar_iff.mp hlall) c hcl).1
      · rcases List.mem_cons.mp hcd with rfl | hcd'
        · decide
        · exact ((all_validAtomChar_iff.mp hdall) c hcd').1
    · rw [hsplit, List.count_append, List.count_cons,
        count_at_eq_zero hlall, count_at_eq_zero hdall]
      simp
    · rw [hdmr, List.get?_append_right (Nat.le_refl m.length)]
      simp
    · have := List.length_pos.mpr hm
      omega
    · have hrpos := List.length_pos.mpr hr
      rw [hdmr]
      simp only [List.length_append, List.length_cons]
      omega
  · rintro ⟨hws, hcount, l, d, hsplit, hl, i, hdot, hi1, hi2⟩
    have hi_lt : i < d.length := by omega
    have hget : d.get ⟨i, hi_lt⟩ = '.' := by
      rcases List.get?_eq_some.mp hdot with ⟨h, hg⟩
      exact hg
    have hcounts : l.count '@' = 0 ∧ d.count '@' = 0 := by
      rw [hsplit, List.count_append, List.count_cons] at hcount
      simp only [beq_self_eq_true, if_pos] at hcount
      constructor <;> omega
    have hat_l : '@' ∉ l := List.count_eq_zero.mp hcounts.1
    have hat_d : '@' ∉ d := List.count_eq_zero.mp hcounts.2
    have hlall : l.all validAtomChar = true := by
      rw [all_validAtomChar_iff]
      intro c hc
      refine ⟨hws c (by rw [hsplit]; exact List.mem_append_left _ hc), ?_⟩
      rintro rfl; exact hat_l hc
    have hdall : ∀ c ∈ d, validAtomChar c = true := by
      intro c hc
      rw [validAtomChar_iff]
      refine ⟨hws c (by
        rw [hsplit]
        exact List.mem_append_right _ (List.mem_cons_of_mem _ hc)), ?_⟩
      rintro rfl; exact hat_d hc
    have hd_decomp : d = d.take i ++ '.' :: d.drop (i + 1) := by
      conv_lhs => rw [← List.take_append_drop i d]
      rw [List.drop_eq_getElem_cons hi_lt]
      rw [show d[i] = '.' from hget]
    have hmne : d.take i ≠ [] := by
      have hlen : (d.take i).length = i := by
        rw [List.length_take]; omega
      intro h
      rw [h] at hlen
      simp at hlen
      omega
    have hrne : d.drop (i + 1) ≠ [] := by
      have hlen : (d.drop (i + 1)).length = d.length - (i + 1) := by simp
      intro h
      rw [h] at hlen
      simp at hlen
      omega
    refine ⟨l, d, hsplit, hl, hlall, (domainMatch_iff d).mpr
      ⟨d.take i, d.drop (i + 1), hd_decomp, hmne, hrne, ?_, ?_⟩⟩
    · rw [List.all_eq_true]
      exact fun c hc => hdall c (List.mem_of_mem_take hc)
    · rw [List.all_eq_true]
      exact fun c hc => hdall c (List.mem_of_mem_drop hc)

/-- C6: for a registration input with email and password present, the
email passes the format check exactly when it contains no whitespace,
exactly one at sign with non-empty text on both sides, and after the at
sign a dot with non-empty text on both sides of that dot; otherwise the
handler responds 400 VALIDATION_ERROR on field email with message
"Invalid email format". -/
theorem email_format_validation (ops : RegisterOps) (e p : Option String)
    (he : truthy e = true) (hp : truthy p = true) :
    (emailRegexTest (e.getD "") = true ↔ emailClaimSpec (e.getD "")) ∧
    (emailRegexTest (e.getD "") = false →
      register ops e p = ⟨valErr "Invalid email format" "email", [], []⟩) := by
  refine ⟨emailRegexTest_iff_claim _, ?_⟩
  intro hre
  simp [register, he, hp, hre]

theorem email_format_validation_witness :
    register ⟨fun _ => .ok none, fun pw _ => .ok pw, fun _ => .ok "i",
        fun _ => "t", 0⟩ (some "user.example.com") (some "password123") =
      ⟨valErr "Invalid email format" "email", [], []⟩ :=
  (email_format_validation
    ⟨fun _ => .ok none, fun pw _ => .ok pw, fun _ => .ok "i", fun _ => "t", 0⟩
    (some "user.example.com") (some "password123") rfl rfl).2 (by decide)

/-! ## C1: unknown email and wrong password are indistinguishable -/

/-- C1: for a login request whose email matches no stored user, and for
one whose email matches a stored user but whose password fails the hash
comparison, the handler returns the identical response, status 401 with
error "Invalid email or password" and code INVALID_CREDENTIALS, with no
log call; the two failure causes are indistinguishable. -/
theorem login_failure_indistinguishable (ops : LoginOps)
    (e p : Option String) (he : truthy e = true) (hp : truthy p = true)
    (h : ops.findOne (e.getD "") = .ok none ∨
      ∃ u : StoredUser, ops.findOne (e.getD "") = .ok (some u) ∧
        ops.bcryptCompare (p.getD "") u.passwordHash = .ok false) :
    login ops e p =
      ⟨⟨401, .err "Invalid email or password" "INVALID_CREDENTIALS"⟩, [],
        [.findOneOp (e.getD "")]⟩ := by
  rcases h with hfind | ⟨u, hfind, hcmp⟩
  · simp [login, he, hp, hfind, invalidCredResp]
  · simp [login, he, hp, hfind, hcmp, invalidCredResp]

theorem login_failure_indistinguishable_witness :
    login ⟨fun _ => .ok none, fun _ _ => .ok false, fun _ => "tok"⟩
        (some "ghost@example.com") (some "password123") =
      ⟨⟨401, .err "Invalid email or password" "INVALID_CREDENTIALS"⟩, [],
        [.findOneOp "ghost@example.com"]⟩ ∧
    login
        ⟨fun _ => .ok (some ⟨"id1", "ghost@example.com", "H", some "user", 0⟩),
          fun _ _ => .ok false, fun _ => "tok"⟩
        (some "ghost@example.com") (some "password123") =
      ⟨⟨401, .err "Invalid email or password" "INVALID_CREDENTIALS"⟩, [],
        [.findOneOp "ghost@example.com"]⟩ :=
  ⟨login_failure_indistinguishable _ _ _ rfl rfl (Or.inl rfl),
    login_failure_indistinguishable _ _ _ rfl rfl
      (Or.inr ⟨⟨"id1", "ghost@example.com", "H", some "user", 0⟩, rfl, rfl⟩)⟩

/-! ## C7: role in token and response, with default -/

/-- C7 counterexample: a stored record whose role field is present but
holds the empty string.  The claim predicts the stored role, i.e. the
empty string, in token and response; the handler computes the role with
JavaScript or-else (user.role or "user"), the empty string is falsy,
and both token payload and response carry "user" instead. -/
theorem login_role_defaults_counterexample :
    login ⟨fun _ => .ok (some ⟨"id7", "a@b.com", "H", some "", 0⟩),
        fun _ _ => .ok true, fun t => t.role⟩
      (some "a@b.com") (some "password123") =
      ⟨⟨200, .auth "user" ⟨"id7", "a@b.com", "user"⟩⟩, [],
        [.findOneOp "a@b.com"]⟩ ∧
    (some "" : Option String) ≠ none ∧ ("user" : String) ≠ "" := by
  refine ⟨?_, by decide, by decide⟩
  rfl

/-- C7 amended: on every successful login the role placed in both the
signed token payload and the response user object is the stored
record's role when that field is present and non-empty, and "user" when
it is absent or the empty string (the or-else is by JavaScript
truthiness); the response is 200 with token and user id, email, role. -/
theorem login_role_defaults (ops : LoginOps) (e p : Option String)
    (u : StoredUser) (he : truthy e = true) (hp : truthy p = true)
    (hfind : ops.findOne (e.getD "") = .ok (some u))
    (hcmp : ops.bcryptCompare (p.getD "") u.passwordHash = .ok true) :
    login ops e p =
      ⟨⟨200, .auth (ops.sign ⟨u.idStr, u.email, roleOr u.role⟩)
          ⟨u.idStr, u.email, roleOr u.role⟩⟩, [],
        [.findOneOp (e.getD "")]⟩ ∧
    (∀ r : String, u.role = some r → r ≠ "" → roleOr u.role = r) ∧
    (u.role = none → roleOr u.role = "user") ∧
    (u.role = some "" → roleOr u.role = "user") := by
  refine ⟨?_, ?_, ?_, ?_⟩
  · simp [login, he, hp, hfind, hcmp]
  · intro r hr hne
    rw [hr]
    simp [roleOr, hne]
  · intro hr; rw [hr]; rfl
  · intro hr; rw [hr]; rfl

theorem login_role_defaults_witness :
    login ⟨fun _ => .ok (some ⟨"id7", "a@b.com", "H", none, 0⟩),
        fun _ _ => .ok true, fun t => t.role⟩
      (some "a@b.com") (some "password123") =
      ⟨⟨200, .auth "user" ⟨"id7", "a@b.com", "user"⟩⟩, [],
        [.findOneOp "a@b.com"]⟩ :=
  (login_role_defaults
    ⟨fun _ => .ok (some ⟨"id7", "a@b.com", "H", none, 0⟩),
      fun _ _ => .ok true, fun t => t.role⟩
    (some "a@b.com") (some "password123") ⟨"id7", "a@b.com", "H", none, 0⟩
    rfl rfl rfl rfl).1

/-! ## C3: validation order and short-circuiting -/

/-- C3: registration applies its four validation checks in order, the
first failing one producing the 400 response with the stated field and
message while issuing no store operation and no log; login applies only
the two presence checks with the same responses, and performs no format
or length check: for every present pair, login issues its findOne
lookup whatever the email format or the password length. -/
theorem validation_order_short_circuit (rops : RegisterOps)
    (lops : LoginOps) (e p : Option String) :
    (truthy e = false →
      register rops e p = ⟨valErr "Missing required field: email" "email", [], []⟩ ∧
      login lops e p = ⟨valErr "Missing required field: email" "email", [], []⟩) ∧
    (truthy e = true → truthy p = false →
      register rops e p =
        ⟨valErr "Missing required field: password" "password", [], []⟩ ∧
      login lops e p =
        ⟨valErr "Missing required field: password" "password", [], []⟩) ∧
    (truthy e = true → truthy p = true →
      emailRegexTest (e.getD "") = false →
      register rops e p = ⟨valErr "Invalid email format" "email", [], []⟩) ∧
    (truthy e = true → truthy p = true →
      emailRegexTest (e.getD "") = true → (p.getD "").length < 8 →
      register rops e p =
        ⟨valErr "Password must be at least 8 characters long" "password", [], []⟩) ∧
    (truthy e = true → truthy p = true →
      (login lops e p).trace = [.findOneOp (e.getD "")]) := by
  refine ⟨?_, ?_, ?_, ?_, ?_⟩
  · intro he; exact ⟨by simp [register, he], by simp [login, he]⟩
  · intro he hp; exact ⟨by simp [register, he, hp], by simp [login, he, hp]⟩
  · intro he hp hre; simp [register, he, hp, hre]
  · intro he hp hre hlen; simp [register, he, hp, hre, hlen]
  · intro he hp
    simp only [login, he, hp]
    cases hfind : lops.findOne (e.getD "") with
    | thrown err => simp [hfind]
    | ok u =>
      cases u with
      | none => simp [hfind]
      | some user =>
        cases hcmp : lops.bcryptCompare (p.getD "") user.passwordHash with
        | thrown err => simp [hfind, hcmp]
        | ok b => cases b <;> simp [hfind, hcmp]

theorem validation_order_short_circuit_witness :
    register ⟨fun _ => .ok none, fun p _ => .ok p, fun _ => .ok "i",
        fun _ => "t", 0⟩ none (some "password123") =
      ⟨valErr "Missing required field: email" "email", [], []⟩ ∧
    register ⟨fun _ => .ok none, fun p _ => .ok p, fun _ => .ok "i",
        fun _ => "t", 0⟩ (some "a@b.com") none =
      ⟨valErr "Missing required field: password" "password", [], []⟩ ∧
    register ⟨fun _ => .ok none, fun p _ => .ok p, fun _ => .ok "i",
        fun _ => "t", 0⟩ (some "not-an-email") (some "password123") =
      ⟨valErr "Invalid email format" "email", [], []⟩ ∧
    register ⟨fun _ => .ok none, fun p _ => .ok p, fun _ => .ok "i",
        fun _ => "t", 0⟩ (some "a@b.com") (some "short") =
      ⟨valErr "Password must be at least 8 characters long" "password", [], []⟩ ∧
    (login ⟨fun _ => .ok none, fun _ _ => .ok false, fun _ => "t"⟩
        (some "not-an-email") (some "x")).trace =
      [.findOneOp "not-an-email"] := by
  refine ⟨?_, ?_, ?_, ?_, ?_⟩
  · exact ((validation_order_short_circuit
      ⟨fun _ => .ok none, fun p _ => .ok p, fun _ => .ok "i", fun _ => "t", 0⟩
      ⟨fun _ => .ok none, fun _ _ => .ok false, fun _ => "t"⟩
      none (some "password123")).1 rfl).1
  · exact ((validation_order_short_circuit
      ⟨fun _ => .ok none, fun p _ => .ok p, fun _ => .ok "i", fun _ => "t", 0⟩
      ⟨fun _ => .ok none, fun _ _ => .ok false, fun _ => "t"⟩
      (some "a@b.com") none).2.1 rfl rfl).1
  · exact (validation_order_short_circuit
      ⟨fun _ => .ok none, fun p _ => .ok p, fun _ => .ok "i", fun _ => "t", 0⟩
      ⟨fun _ => .ok none, fun _ _ => .ok false, fun _ => "t"⟩
      (some "not-an-email") (some "password123")).2.2.1 rfl rfl rfl
  · exact (validation_order_short_circuit
      ⟨fun _ => .ok none, fun p _ => .ok p, fun _ => .ok "i", fun _ => "t", 0⟩
      ⟨fun _ => .ok none, fun _ _ => .ok false, fun _ => "t"⟩
      (some "a@b.com") (some "short")).2.2.2.1 rfl rfl rfl (by decide)
  · exact (validation_order_short_circuit
      ⟨fun _ => .ok none, fun p _ => .ok p, fun _ => .ok "i", fun _ => "t", 0⟩
      ⟨fun _ => .ok none, fun _ _ => .ok false, fun _ => "t"⟩
      (some "not-an-email") (some "x")).2.2.2.2 rfl rfl

/-! ## C4: pre-checked and race-detected duplicates are identical -/

/-- C4: for a validated registration input, a pre-insert lookup that
finds a user with the same email and an insert that fails with a
duplicate-key error (code 11000) after a lookup that found none produce
the same response: 409 with error "An account with this email already
exists" and code DUPLICATE_EMAIL, with no log call in either case. -/
theorem duplicate_paths_same_response (ops : RegisterOps)
    (e p : Option String) (he : truthy e = true) (hp : truthy p = true)
    (hre : emailRegexTest (e.getD "") = true)
    (hlen : ¬(p.getD "").length < 8) :
    (∀ u : StoredUser, ops.findOne (e.getD "") = .ok (some u) →
      (register ops e p).response =
        ⟨409, .err "An account with this email already exists" "DUPLICATE_EMAIL"⟩ ∧
      (register ops e p).logs = []) ∧
    (∀ (h : String) (err : JsError), ops.findOne (e.getD "") = .ok none →
      ops.bcryptHash (p.getD "") 10 = .ok h →
      ops.insertOne ⟨e.getD "", h, "user", ops.now⟩ = .thrown err →
      err.code = some 11000 →
      (register ops e p).response =
        ⟨409, .err "An account with this email already exists" "DUPLICATE_EMAIL"⟩ ∧
      (register ops e p).logs = []) := by
  constructor
  · intro u hfind
    constructor <;> simp [register, he, hp, hre, hlen, hfind, dupResp]
  · intro h err hfind hhash hins hcode
    constructor <;>
      simp [register, registerCatch, he, hp, hre, hlen, hfind, hhash, hins,
        hcode, dupResp]

theorem duplicate_paths_same_response_witness :
    (register ⟨fun _ => .ok (some ⟨"i0", "a@b.com", "H", some "user", 0⟩),
        fun p _ => .ok p, fun _ => .ok "i1", fun _ => "t", 0⟩
      (some "a@b.com") (some "password123")).response =
      ⟨409, .err "An account with this email already exists" "DUPLICATE_EMAIL"⟩ ∧
    (register ⟨fun _ => .ok none, fun p _ => .ok p,
        fun _ => .thrown ⟨some 11000, "E11000", ""⟩, fun _ => "t", 0⟩
      (some "a@b.com") (some "password123")).response =
      ⟨409, .err "An account with this email already exists" "DUPLICATE_EMAIL"⟩ :=
  ⟨((duplicate_paths_same_response
      ⟨fun _ => .ok (some ⟨"i0", "a@b.com", "H", some "user", 0⟩),
        fun p _ => .ok p, fun _ => .ok "i1", fun _ => "t", 0⟩
      (some "a@b.com") (some "password123") rfl rfl rfl (by decide)).1
      ⟨"i0", "a@b.com", "H", some "user", 0⟩ rfl).1,
    ((duplicate_paths_same_response
      ⟨fun _ => .ok none, fun p _ => .ok p,
        fun _ => .thrown ⟨some 11000, "E11000", ""⟩, fun _ => "t", 0⟩
      (some "a@b.com") (some "password123") rfl rfl rfl (by decide)).2
      "password123" ⟨some 11000, "E11000", ""⟩ rfl rfl rfl rfl).1⟩

/-! ## C5: successful registration persists the record and responds 201 -/

/-- C5: a validated registration whose lookup finds no user appends to
the store exactly the record with the given email, passwordHash equal
to the bcrypt hash of the password at cost factor 10, role "user" and
the creation timestamp; the response is 201 with a token signed over
the inserted id, email and role, and a user object carrying the
store-assigned id, the email and the role. -/
theorem register_success_persists (bhash : String → Nat → String)
    (sign : TokenPayload → String) (newId : String) (now : Nat)
    (store : List StoredUser) (e p : Option String)
    (he : truthy e = true) (hp : truthy p = true)
    (hre : emailRegexTest (e.getD "") = true)
    (hlen : ¬(p.getD "").length < 8)
    (hfind : findOneEmail store (e.getD "") = none) :
    registerOnStore bhash sign newId now store e p =
      (⟨⟨201, .auth (sign ⟨newId, e.getD "", "user"⟩)
            ⟨newId, e.getD "", "user"⟩⟩, [],
          [.findOneOp (e.getD ""),
            .insertOneOp ⟨e.getD "", bhash (p.getD "") 10, "user", now⟩]⟩,
        store ++ [⟨newId, e.getD "", bhash (p.getD "") 10, some "user", now⟩]) := by
  have hhas : storeHas store (e.getD "") = false :=
    storeHas_of_findOneEmail_none hfind
  simp [registerOnStore, he, hp, hre, hlen, hfind, insertOneUnique, hhas]

theorem register_success_persists_witness :
    registerOnStore (fun pw c => pw ++ "#" ++ toString c) (fun t => t.userId)
        "id42" 7 [] (some "a@b.com") (some "password123") =
      (⟨⟨201, .auth "id42" ⟨"id42", "a@b.com", "user"⟩⟩, [],
          [.findOneOp "a@b.com",
            .insertOneOp ⟨"a@b.com", "password123#10", "user", 7⟩]⟩,
        [⟨"id42", "a@b.com", "password123#10", some "user", 7⟩]) :=
  register_success_persists (fun pw c => pw ++ "#" ++ toString c)
    (fun t => t.userId) "id42" 7 [] (some "a@b.com") (some "password123")
    rfl rfl rfl (by decide) rfl

/-! ## C8: infrastructure failures are logged and masked -/

/-- C8: an insert that fails with any error other than a duplicate-key
error makes registration log "Registration error" with the causal error
message, stack and attempted email and respond 500 with exactly error
"Failed to create account" and code REGISTRATION_ERROR; a login whose
lookup or comparison throws logs "Login error" with the same context
and responds 500 with exactly error "Failed to process login" and code
LOGIN_ERROR; neither body depends on the underlying error. -/
theorem infrastructure_failure_responses (rops : RegisterOps)
    (lops : LoginOps) (e p : Option String)
    (he : truthy e = true) (hp : truthy p = true) :
    (∀ (h : String) (err : JsError),
      emailRegexTest (e.getD "") = true → ¬(p.getD "").length < 8 →
      rops.findOne (e.getD "") = .ok none →
      rops.bcryptHash (p.getD "") 10 = .ok h →
      rops.insertOne ⟨e.getD "", h, "user", rops.now⟩ = .thrown err →
      err.code ≠ some 11000 →
      (register rops e p).response =
        ⟨500, .err "Failed to create account" "REGISTRATION_ERROR"⟩ ∧
      (register rops e p).logs =
        [⟨"Registration error", ⟨err.message, err.stack, e.getD ""⟩⟩]) ∧
    (∀ err : JsError, lops.findOne (e.getD "") = .thrown err →
      (login lops e p).response =
        ⟨500, .err "Failed to process login" "LOGIN_ERROR"⟩ ∧
      (login lops e p).logs =
        [⟨"Login error", ⟨err.message, err.stack, e.getD ""⟩⟩]) ∧
    (∀ (u : StoredUser) (err : JsError),
      lops.findOne (e.getD "") = .ok (some u) →
      lops.bcryptCompare (p.getD "") u.passwordHash = .thrown err →
      (login lops e p).response =
        ⟨500, .err "Failed to process login" "LOGIN_ERROR"⟩ ∧
      (login lops e p).logs =
        [⟨"Login error", ⟨err.message, err.stack, e.getD ""⟩⟩]) := by
  refine ⟨?_, ?_, ?_⟩
  · intro h err hre hlen hfind hhash hins hcode
    constructor <;>
      simp [register, registerCatch, he, hp, hre, hlen, hfind, hhash, hins,
        hcode, regFailResp]
  · intro err hfind
    constructor <;> simp [login, loginCatch, he, hp, hfind, loginFailResp]
  · intro u err hfind hcmp
    constructor <;>
      simp [login, loginCatch, he, hp, hfind, hcmp, loginFailResp]

theorem infrastructure_failure_responses_witness :
    (register ⟨fun _ => .ok none, fun pw _ => .ok pw,
        fun _ => .thrown ⟨none, "boom", "trace"⟩, fun _ => "t", 0⟩
      (some "a@b.com") (some "password123")).response =
      ⟨500, .err "Failed to create account" "REGISTRATION_ERROR"⟩ ∧
    (register ⟨fun _ => .ok none, fun pw _ => .ok pw,
        fun _ => .thrown ⟨none, "boom", "trace"⟩, fun _ => "t", 0⟩
      (some "a@b.com") (some "password123")).logs =
      [⟨"Registration error", ⟨"boom", "trace", "a@b.com"⟩⟩] ∧
    (login ⟨fun _ => .thrown ⟨none, "down", "st"⟩, fun _ _ => .ok true,
        fun _ => "t"⟩ (some "a@b.com") (some "pw")).response =
      ⟨500, .err "Failed to process login" "LOGIN_ERROR"⟩ := by
  refine ⟨?_, ?_, ?_⟩
  · exact ((infrastructure_failure_responses
      ⟨fun _ => .ok none, fun pw _ => .ok pw,
        fun _ => .thrown ⟨none, "boom", "trace"⟩, fun _ => "t", 0⟩
      ⟨fun _ => .thrown ⟨none, "down", "st"⟩, fun _ _ => .ok true, fun _ => "t"⟩
      (some "a@b.com") (some "password123") rfl rfl).1
      "password123" ⟨none, "boom", "trace"⟩ rfl (by decide) rfl rfl rfl
      (by decide)).1
  · exact ((infrastructure_failure_responses
      ⟨fun _ => .ok none, fun pw _ => .ok pw,
        fun _ => .thrown ⟨none, "boom", "trace"⟩, fun _ => "t", 0⟩
      ⟨fun _ => .thrown ⟨none, "down", "st"⟩, fun _ _ => .ok true, fun _ => "t"⟩
      (some "a@b.com") (some "password123") rfl rfl).1
      "password123" ⟨none, "boom", "trace"⟩ rfl (by decide) rfl rfl rfl
      (by decide)).2
  · exact ((infrastructure_failure_responses
      ⟨fun _ => .ok none, fun pw _ => .ok pw,
        fun _ => .thrown ⟨none, "boom", "trace"⟩, fun _ => "t", 0⟩
      ⟨fun _ => .thrown ⟨none, "down", "st"⟩, fun _ _ => .ok true, fun _ => "t"⟩
      (some "a@b.com") (some "pw") rfl rfl).2.1
      ⟨none, "down", "st"⟩ rfl).1

/-! ## C9: the empty string is treated as missing -/

/-- C9: for both handlers an empty-string email fails the presence
check with "Missing required field: email" and an empty-string password
(with a present email) fails with "Missing required field: password",
each a 400 VALIDATION_ERROR, with no store operation and no log; the
empty string therefore never reaches the format or length checks. -/
theorem empty_string_treated_missing (rops : RegisterOps)
    (lops : LoginOps) (e p : Option String) :
    (register rops (some "") p =
      ⟨valErr "Missing required field: email" "email", [], []⟩) ∧
    (login lops (some "") p =
      ⟨valErr "Missing required field: email" "email", [], []⟩) ∧
    (truthy e = true → register rops e (some "") =
      ⟨valErr "Missing required field: password" "password", [], []⟩) ∧
    (truthy e = true → login lops e (some "") =
      ⟨valErr "Missing required field: password" "password", [], []⟩) := by
  have hempty : truthy (some "") = false := rfl
  refine ⟨?_, ?_, ?_, ?_⟩
  · simp [register, hempty]
  · simp [login, hempty]
  · intro he; simp [register, he, hempty]
  · intro he; simp [login, he, hempty]

theorem empty_string_treated_missing_witness :
    register ⟨fun _ => .ok none, fun pw _ => .ok pw, fun _ => .ok "i",
        fun _ => "t", 0⟩ (some "a@b.com") (some "") =
      ⟨valErr "Missing required field: password" "password", [], []⟩ :=
  (empty_string_treated_missing
    ⟨fun _ => .ok none, fun pw _ => .ok pw, fun _ => .ok "i", fun _ => "t", 0⟩
    ⟨fun _ => .ok none, fun _ _ => .ok true, fun _ => "t"⟩
    (some "a@b.com") (some "")).2.2.1 rfl

/-! ## C2: email uniqueness, including under concurrency -/

theorem countP_set_add {α : Type} (q : α → Bool) :
    ∀ (l : List α) (i : Nat) (a b : α), l.get? i = some b →
      (l.set i a).countP q + (if q b then 1 else 0) =
        l.countP q + (if q a then 1 else 0) := by
  intro l
  induction l with
  | nil => intro i a b h; simp at h
  | cons x xs ih =>
    intro i a b h
    cases i with
    | zero =>
      simp only [List.get?_cons_zero, Option.some.injEq] at h
      subst h
      simp only [List.set_cons_zero, List.countP_cons]
      omega
    | succ n =>
      simp only [List.get?_cons_succ] at h
      simp only [List.set_cons_succ, List.countP_cons]
      have := ih n a b h
      omega

theorem registerCatch_dupKey (E : String) :
    (registerCatch E dupKeyError).1 = dupResp := rfl

theorem raceStep_length {E : String} {c c' : RaceConfig}
    (h : RaceStep E c c') : c'.sess.length = c.sess.length := by
  cases h <;> simp

theorem raceStep_inv {E : String} {c c' : RaceConfig}
    (hstep : RaceStep E c c') (hinv : raceInv E c) : raceInv E c' := by
  obtain ⟨h1, h2, h3, h4⟩ := hinv
  cases hstep with
  | findFound store sess i hi hf =>
    have hpres : storeHas store E = true := findOneEmail_isSome_iff.mp hf
    have hcount :=
      countP_set_add is201 sess i (.finished dupResp) .start hi
    refine ⟨?_, ?_, ?_, ?_⟩
    · have hnew : is201 (SessState.finished dupResp) = false := rfl
      have hold : is201 SessState.start = false := rfl
      rw [hnew, hold] at hcount
      simp only [if_neg Bool.false_ne_true] at hcount
      rw [hpres] at h1 ⊢
      simp only [if_pos] at h1 ⊢
      omega
    · intro d hd
      rcases List.mem_or_eq_of_mem_set hd with hmem | heq
      · exact h2 d hmem
      · cases heq
    · intro st hst hfin
      rcases List.mem_or_eq_of_mem_set hst with hmem | heq
      · exact h3 st hmem hfin
      · subst heq; exact Or.inr rfl
    · intro hnp
      rw [hnp] at hpres; cases hpres
  | findNone store sess i d hi hf hd =>
    refine ⟨?_, ?_, ?_, ?_⟩
    · have hcount :=
        countP_set_add is201 sess i (.needInsert d) .start hi
      have hnew : is201 (SessState.needInsert d) = false := rfl
      have hold : is201 SessState.start = false := rfl
      rw [hnew, hold] at hcount
      simp only [if_neg Bool.false_ne_true] at hcount
      dsimp only at h1 ⊢
      omega
    · intro d' hd'
      rcases List.mem_or_eq_of_mem_set hd' with hmem | heq
      · exact h2 d' hmem
      · cases heq; exact hd
    · intro st hst hfin
      rcases List.mem_or_eq_of_mem_set hst with hmem | heq
      · exact h3 st hmem hfin
      · subst heq; cases hfin
    · intro hnp st hst
      rcases List.mem_or_eq_of_mem_set hst with hmem | heq
      · exact h4 hnp st hmem
      · subst heq; rfl
  | insertOk store sess i d store' tok hi hins =>
    obtain ⟨hno, hs'⟩ := insertOneUnique_ok hins
    have hdE : d.email = E := h2 d (List.get?_mem hi)
    have hnoE : storeHas store E = false := by rw [← hdE]; exact hno
    have hpres : storeHas store' E = true := by
      rw [hs', ← hdE]; exact storeHas_append_self
    have hcount := countP_set_add is201 sess i
      (.finished (successResp tok d)) (.needInsert d) hi
    refine ⟨?_, ?_, ?_, ?_⟩
    · have hnew : is201 (SessState.finished (successResp tok d)) = true := rfl
      have hold : is201 (SessState.needInsert d) = false := rfl
      rw [hnew, hold] at hcount
      rw [hnoE] at h1
      simp only [if_neg Bool.false_ne_true, if_pos] at h1 hcount
      rw [hpres]
      simp only [if_pos]
      omega
    · intro d' hd'
      rcases List.mem_or_eq_of_mem_set hd' with hmem | heq
      · exact h2 d' hmem
      · cases heq
    · intro st hst hfin
      rcases List.mem_or_eq_of_mem_set hst with hmem | heq
      · exact h3 st hmem hfin
      · subst heq; exact Or.inl rfl
    · intro hnp
      rw [hnp] at hpres; cases hpres
  | insertDup store sess i d err hi hins =>
    obtain ⟨hyes, herr⟩ := insertOneUnique_thrown hins
    have hdE : d.email = E := h2 d (List.get?_mem hi)
    have hpres : storeHas store E = true := by rw [← hdE]; exact hyes
    subst herr
    have hcount := countP_set_add is201 sess i
      (.finished (registerCatch E dupKeyError).1) (.needInsert d) hi
    refine ⟨?_, ?_, ?_, ?_⟩
    · have hnew :
          is201 (SessState.finished (registerCatch E dupKeyError).1) = false :=
        rfl
      have hold : is201 (SessState.needInsert d) = false := rfl
      rw [hnew, hold] at hcount
      simp only [if_neg Bool.false_ne_true] at hcount
      rw [hpres] at h1 ⊢
      simp only [if_pos] at h1 ⊢
      omega
    · intro d' hd'
      rcases List.mem_or_eq_of_mem_set hd' with hmem | heq
      · exact h2 d' hmem
      · cases heq
    · intro st hst hfin
      rcases List.mem_or_eq_of_mem_set hst with hmem | heq
      · exact h3 st hmem hfin
      · subst heq
        exact Or.inr (by rw [registerCatch_dupKey])
    · intro hnp
      rw [hnp] at hpres; cases hpres

theorem raceRun_inv {E : String} {c c' : RaceConfig}
    (hrun : Relation.ReflTransGen (RaceStep E) c c') (hinv : raceInv E c) :
    raceInv E c' := by
  induction hrun with
  | refl => exact hinv
  | tail _ hstep ih => exact raceStep_inv hstep ih

theorem raceRun_length {E : String} {c c' : RaceConfig}
    (hrun : Relation.ReflTransGen (RaceStep E) c c') :
    c'.sess.length = c.sess.length := by
  induction hrun with
  | refl => rfl
  | tail _ hstep ih => rw [raceStep_length hstep, ih]

theorem raceInv_init (E : String) (store0 : List StoredUser) (k : Nat)
    (h0 : storeHas store0 E = false) :
    raceInv E ⟨store0, List.replicate k .start⟩ := by
  refine ⟨?_, ?_, ?_, ?_⟩
  · have hz : (List.replicate k SessState.start).countP is201 = 0 := by
      rw [List.countP_eq_zero]
      intro a ha
      rw [(List.mem_replicate.mp ha).2]
      simp [is201]
    simpa [h0] using hz
  · intro d hd
    exact absurd (List.mem_replicate.mp hd).2 (by simp)
  · intro st hst hfin
    rw [(List.mem_replicate.mp hst).2] at hfin
    cases hfin
  · intro _ st hst
    rw [(List.mem_replicate.mp hst).2]
    rfl

/-- C2: the unique index keeps at most one record per email: a
successful insert preserves pairwise-distinct emails; an insert for an
already-stored email is rejected with a duplicate-key error of code
11000; the register handler issues an insert only after its lookup
found no record; and in any complete interleaving of concurrent
register sessions for one absent email, exactly one session finishes
201 and every other finished session holds the DUPLICATE_EMAIL 409. -/
theorem users_email_unique_invariant :
    (∀ (store : List StoredUser) (d : StoredUser) (store' : List StoredUser),
      storeUnique store → insertOneUnique store d = .ok store' →
      storeUnique store') ∧
    (∀ (store : List StoredUser) (d : StoredUser),
      storeHas store d.email = true →
      ∃ err : JsError, insertOneUnique store d = .thrown err ∧
        err.code = some 11000) ∧
    (∀ (ops : RegisterOps) (e p : Option String) (d : NewUser),
      StoreOp.insertOneOp d ∈ (register ops e p).trace →
      ops.findOne (e.getD "") = .ok none) ∧
    (∀ (E : String) (store0 : List StoredUser) (k : Nat) (c : RaceConfig),
      storeHas store0 E = false →
      Relation.ReflTransGen (RaceStep E) ⟨store0, List.replicate k .start⟩ c →
      (∀ st ∈ c.sess, isFinished st = true) → 1 ≤ k →
      c.sess.countP is201 = 1 ∧
        ∀ st ∈ c.sess, is201 st = true ∨ st = .finished dupResp) := by
  refine ⟨?_, ?_, ?_, ?_⟩
  · intro store d store' huniq hins
    obtain ⟨hno, hs'⟩ := insertOneUnique_ok hins
    subst hs'
    unfold storeUnique at huniq ⊢
    rw [List.pairwise_append]
    refine ⟨huniq, by simp, ?_⟩
    intro a ha b hb
    simp only [List.mem_singleton] at hb
    subst hb
    have h := List.any_eq_false.mp hno a ha
    simpa using h
  · intro store d hhas
    exact ⟨dupKeyError, by simp [insertOneUnique, hhas], rfl⟩
  · intro ops e p d hmem
    by_cases he : truthy e = false
    · simp [register, he] at hmem
    · by_cases hp : truthy p = false
      · simp [register, he, hp] at hmem
      · by_cases hre : emailRegexTest (e.getD "") = false
        · simp [register, he, hp, hre] at hmem
        · by_cases hlen : (p.getD "").length < 8
          · simp [register, he, hp, hre, hlen] at hmem
          · cases hfind : ops.findOne (e.getD "") with
            | thrown err =>
              simp [register, he, hp, hre, hlen, hfind] at hmem
            | ok u =>
              cases u with
              | none => rfl
              | some user =>
                simp [register, he, hp, hre, hlen, hfind] at hmem
  · intro E store0 k c h0 hrun hfin hk
    obtain ⟨h1, h2, h3, h4⟩ := raceRun_inv hrun (raceInv_init E store0 k h0)
    have hlen : c.sess.length = k := by
      have h := raceRun_length hrun
      simpa using h
    have hne : c.sess ≠ [] := by
      intro h
      rw [h] at hlen
      simp at hlen
      omega
    obtain ⟨st0, hst0⟩ := List.exists_mem_of_ne_nil c.sess hne
    have hpres : storeHas c.store E = true := by
      cases hsh : storeHas c.store E with
      | true => rfl
      | false =>
        have h := h4 hsh st0 hst0
        rw [hfin st0 hst0] at h
        cases h
    rw [hpres] at h1
    simp only [if_pos] at h1
    exact ⟨h1, fun st hst => h3 st hst (hfin st hst)⟩

theorem users_email_unique_invariant_witness :
    storeUnique [(⟨"i1", "a@b.com", "h1", some "user", 0⟩ : StoredUser)] ∧
    List.countP is201
      [SessState.finished
        (successResp "t" ⟨"i1", "a@b.com", "h1", some "user", 0⟩),
       SessState.finished dupResp] = 1 := by
  have H := users_email_unique_invariant
  constructor
  · exact H.1 [] ⟨"i1", "a@b.com", "h1", some "user", 0⟩
      [⟨"i1", "a@b.com", "h1", some "user", 0⟩]
      (by unfold storeUnique; simp) rfl
  · have s1 : RaceStep "a@b.com" ⟨[], List.replicate 2 SessState.start⟩
        ⟨[], [SessState.needInsert ⟨"i1", "a@b.com", "h1", some "user", 0⟩,
          SessState.start]⟩ :=
      RaceStep.findNone [] [SessState.start, SessState.start] 0
        ⟨"i1", "a@b.com", "h1", some "user", 0⟩ rfl rfl rfl
    have s2 : RaceStep "a@b.com"
        ⟨[], [SessState.needInsert ⟨"i1", "a@b.com", "h1", some "user", 0⟩,
          SessState.start]⟩
        ⟨[], [SessState.needInsert ⟨"i1", "a@b.com", "h1", some "user", 0⟩,
          SessState.needInsert ⟨"i2", "a@b.com", "h2", some "user", 0⟩]⟩ :=
      RaceStep.findNone []
        [SessState.needInsert ⟨"i1", "a@b.com", "h1", some "user", 0⟩,
          SessState.start] 1
        ⟨"i2", "a@b.com", "h2", some "user", 0⟩ rfl rfl rfl
    have s3 : RaceStep "a@b.com"
        ⟨[], [SessState.needInsert ⟨"i1", "a@b.com", "h1", some "user", 0⟩,
          SessState.needInsert ⟨"i2", "a@b.com", "h2", some "user", 0⟩]⟩
        ⟨[⟨"i1", "a@b.com", "h1", some "user", 0⟩],
          [SessState.finished
            (successResp "t" ⟨"i1", "a@b.com", "h1", some "user", 0⟩),
           SessState.needInsert ⟨"i2", "a@b.com", "h2", some "user", 0⟩]⟩ :=
      RaceStep.insertOk []
        [SessState.needInsert ⟨"i1", "a@b.com", "h1", some "user", 0⟩,
          SessState.needInsert ⟨"i2", "a@b.com", "h2", some "user", 0⟩] 0
        ⟨"i1", "a@b.com", "h1", some "user", 0⟩
        [⟨"i1", "a@b.com", "h1", some "user", 0⟩] "t" rfl rfl
    have s4 : RaceStep "a@b.com"
        ⟨[⟨"i1", "a@b.com", "h1", some "user", 0⟩],
          [SessState.finished
            (successResp "t" ⟨"i1", "a@b.com", "h1", some "user", 0⟩),
           SessState.needInsert ⟨"i2", "a@b.com", "h2", some "user", 0⟩]⟩
        ⟨[⟨"i1", "a@b.com", "h1", some "user", 0⟩],
          [SessState.finished
            (successResp "t" ⟨"i1", "a@b.com", "h1", some "user", 0⟩),
           SessState.finished dupResp]⟩ :=
      RaceStep.insertDup [⟨"i1", "a@b.com", "h1", some "user", 0⟩]
        [SessState.finished
          (successResp "t" ⟨"i1", "a@b.com", "h1", some "user", 0⟩),
         SessState.needInsert ⟨"i2", "a@b.com", "h2", some "user", 0⟩] 1
        ⟨"i2", "a@b.com", "h2", some "user", 0⟩ dupKeyError rfl rfl
    have run : Relation.ReflTransGen (RaceStep "a@b.com")
        ⟨[], List.replicate 2 SessState.start⟩
        ⟨[⟨"i1", "a@b.com", "h1", some "user", 0⟩],
          [SessState.finished
            (successResp "t" ⟨"i1", "a@b.com", "h1", some "user", 0⟩),
           SessState.finished dupResp]⟩ :=
      Relation.ReflTransGen.tail (Relation.ReflTransGen.tail
        (Relation.ReflTransGen.tail (Relation.ReflTransGen.single s1) s2) s3)
        s4
    exact (H.2.2.2 "a@b.com" [] 2
      ⟨[⟨"i1", "a@b.com", "h1", some "user", 0⟩],
        [SessState.finished
          (successResp "t" ⟨"i1", "a@b.com", "h1", some "user", 0⟩),
         SessState.finished dupResp]⟩
      rfl run (by decide) (by decide)).1

/-! ## C10: login never mutates the users store -/

theorem loginOnStore_frame (cmp : String → String → OpResult Bool)
    (sign : TokenPayload → String) (store : List StoredUser)
    (e p : Option String) :
    (loginOnStore cmp sign store e p).2 = store := by
  unfold loginOnStore
  by_cases he : truthy e = false
  · simp [he]
  · by_cases hp : truthy p = false
    · simp [he, hp]
    · simp only [if_neg he, if_neg hp]
      cases hfind : findOneEmail store (e.getD "") with
      | none => simp [hfind]
      | some user =>
        cases hcmp : cmp (p.getD "") user.passwordHash with
        | thrown err => simp [hfind, hcmp]
        | ok b => cases b <;> simp [hfind, hcmp]

theorem loginOnStore_trace_cases (cmp : String → String → OpResult Bool)
    (sign : TokenPayload → String) (store : List StoredUser)
    (e p : Option String) :
    (loginOnStore cmp sign store e p).1.trace = [] ∨
      (loginOnStore cmp sign store e p).1.trace = [.findOneOp (e.getD "")] := by
  unfold loginOnStore
  by_cases he : truthy e = false
  · exact Or.inl (by simp [he])
  · by_cases hp : truthy p = false
    · exact Or.inl (by simp [he, hp])
    · simp only [if_neg he, if_neg hp]
      cases hfind : findOneEmail store (e.getD "") with
      | none => exact Or.inr (by simp [hfind])
      | some user =>
        cases hcmp : cmp (p.getD "") user.passwordHash with
        | thrown err => exact Or.inr (by simp [hfind, hcmp])
        | ok b => cases b <;> exact Or.inr (by simp [hfind, hcmp])

theorem login_trace_cases (ops : LoginOps) (e p : Option String) :
    (login ops e p).trace = [] ∨
      (login ops e p).trace = [.findOneOp (e.getD "")] := by
  unfold login
  by_cases he : truthy e = false
  · exact Or.inl (by simp [he])
  · by_cases hp : truthy p = false
    · exact Or.inl (by simp [he, hp])
    · simp only [if_neg he, if_neg hp]
      cases hfind : ops.findOne (e.getD "") with
      | thrown err => exact Or.inr (by simp [hfind])
      | ok u =>
        cases u with
        | none => exact Or.inr (by simp [hfind])
        | some user =>
          cases hcmp : ops.bcryptCompare (p.getD "") user.passwordHash with
          | thrown err => exact Or.inr (by simp [hfind, hcmp])
          | ok b => cases b <;> exact Or.inr (by simp [hfind, hcmp])

/-- C10: on every path of the login handler the store after the request
equals the store before it, the trace of store operations is empty (a
validation failure) or exactly one findOne on the given email, and the
handler never issues an insertOne. -/
theorem login_never_mutates_store (cmp : String → String → OpResult Bool)
    (sign : TokenPayload → String) (store : List StoredUser)
    (lops : LoginOps) (e p : Option String) :
    (loginOnStore cmp sign store e p).2 = store ∧
    ((loginOnStore cmp sign store e p).1.trace = [] ∨
      (loginOnStore cmp sign store e p).1.trace = [.findOneOp (e.getD "")]) ∧
    (∀ d : NewUser, StoreOp.insertOneOp d ∉ (login lops e p).trace) := by
  refine ⟨loginOnStore_frame cmp sign store e p,
    loginOnStore_trace_cases cmp sign store e p, ?_⟩
  intro d hmem
  rcases login_trace_cases lops e p with ht | ht <;> rw [ht] at hmem <;>
    simp at hmem

theorem login_never_mutates_store_witness :
    (loginOnStore (fun _ _ => .ok true) (fun _ => "t")
      [⟨"i1", "a@b.com", "H", some "user", 0⟩]
      (some "a@b.com") (some "password123")).2 =
      [⟨"i1", "a@b.com", "H", some "user", 0⟩] :=
  (login_never_mutates_store (fun _ _ => .ok true) (fun _ => "t")
    [⟨"i1", "a@b.com", "H", some "user", 0⟩]
    ⟨fun _ => .ok none, fun _ _ => .ok true, fun _ => "t"⟩
    (some "a@b.com") (some "password123")).1

end GetDucked
